import Mathlib

/-!
Verification of the QuickEdit annotation engine (src/script.js).

The JavaScript source is shallowly embedded over exact rationals:
every numeric value of the program is modelled as `ℚ` (the source
computes with IEEE doubles; rounding is outside the model).  External
library functions that the program calls but does not define
(`Math.cos`, `Math.sin`, `Math.atan2`, canvas `measureText`) are
collected in a record `Ext` of abstract functions, so every theorem
is proved for an arbitrary interpretation of them.  Square roots in
`distanceToLineSegment` are eliminated by comparing squared distances:
for a tolerance `t`, `Math.sqrt d2 <= t` holds exactly when
`0 ≤ t ∧ d2 ≤ t * t`, and this sqrt-free form is what the embedding
uses.  JavaScript objects are dynamic records whose kind-specific
fields may be absent; absent-by-kind fields are modelled with `Option`
where the code's truthiness tests (`obj.width || 0`,
`if (!obj.originalWidth)`) make the distinction observable, and with a
defaulted plain field otherwise.
-/

namespace QuickEdit

/-- Tool identifiers, also used as the `type` tag of annotation objects
(the source uses the same strings for both). -/
inductive Tool where
  | select
  | crop
  | text
  | rect
  | circle
  | check
  | cross
  | arrow
  | numbers
  | blur
  | brush
  | eraser
  | shape
deriving DecidableEq, Repr

/-- A point, as stored in `points` arrays of brush strokes. -/
structure Pt where
  x : ℚ
  y : ℚ
deriving DecidableEq, Repr

/-- An axis-aligned box `{x, y, width, height}` as returned by
`getObjectBounds`. -/
structure Box where
  x : ℚ
  y : ℚ
  width : ℚ
  height : ℚ
deriving DecidableEq, Repr

/-- An annotation object (one element of `drawingStack`).  The source
builds these as dynamic records; fields that a kind does not carry are
modelled as `Option` when the code tests for their absence
(`width`, `height`, `originalWidth`, `originalHeight`, `originalSize`,
`initialRotation`, `number`), and as plain fields with a neutral
default otherwise (`lineWidth`, `radius`, `size`, `text`, `points`).
Brush strokes are created without `x`/`y` in the source; the model
keeps the defaulted `x = y = 0` and every theorem touching brush
geometry requires a nonempty `points` list, which is what creation
guarantees (the empty-points fallback of `getObjectBounds` would read
`undefined` in the source). -/
structure Obj where
  type : Tool
  color : String := ""
  rotation : ℚ := 0
  x : ℚ := 0
  y : ℚ := 0
  width : Option ℚ := none
  height : Option ℚ := none
  lineWidth : ℚ := 0
  radius : ℚ := 0
  size : ℚ := 0
  text : String := ""
  number : Option ℕ := none
  points : List Pt := []
  originalWidth : Option ℚ := none
  originalHeight : Option ℚ := none
  originalSize : Option ℚ := none
  initialRotation : Option ℚ := none
deriving DecidableEq, Repr

/-- External functions the program calls but does not define:
trigonometry from `Math` and text measurement from the canvas 2d
context.  All theorems hold for every interpretation. -/
structure Ext where
  cos : ℚ → ℚ
  sin : ℚ → ℚ
  atan2 : ℚ → ℚ → ℚ
  measureText : Obj → ℚ

/-- Bounds of a brush or eraser stroke: min/max over the points,
expanded by `lineWidth / 2` on each side (script.js:1729-1754).  The
empty-points fallback mirrors the source's `obj.x`/`obj.y` branch. -/
def brushBounds (o : Obj) : Box :=
  match o.points with
  | [] => ⟨o.x - o.lineWidth / 2, o.y - o.lineWidth / 2, o.lineWidth, o.lineWidth⟩
  | p :: ps =>
    let minX := (ps.map Pt.x).foldl min p.x - o.lineWidth / 2
    let maxX := (ps.map Pt.x).foldl max p.x + o.lineWidth / 2
    let minY := (ps.map Pt.y).foldl min p.y - o.lineWidth / 2
    let maxY := (ps.map Pt.y).foldl max p.y + o.lineWidth / 2
    ⟨minX, minY, maxX - minX, maxY - minY⟩

/-- Axis-aligned bounding box of the four corners of `b` rotated by
`rot` about the center of `b` (script.js:1764-1799). -/
def rotatedCornerBounds (ext : Ext) (b : Box) (rot : ℚ) : Box :=
  let centerX := b.x + b.width / 2
  let centerY := b.y + b.height / 2
  let rotPt : Pt → Pt := fun c =>
    let dx := c.x - centerX
    let dy := c.y - centerY
    ⟨centerX + dx * ext.cos rot - dy * ext.sin rot,
     centerY + dx * ext.sin rot + dy * ext.cos rot⟩
  let c1 := rotPt ⟨b.x, b.y⟩
  let c2 := rotPt ⟨b.x + b.width, b.y⟩
  let c3 := rotPt ⟨b.x + b.width, b.y + b.height⟩
  let c4 := rotPt ⟨b.x, b.y + b.height⟩
  let minX := min (min (min c1.x c2.x) c3.x) c4.x
  let maxX := max (max (max c1.x c2.x) c3.x) c4.x
  let minY := min (min (min c1.y c2.y) c3.y) c4.y
  let maxY := max (max (max c1.y c2.y) c3.y) c4.y
  ⟨minX, minY, maxX - minX, maxY - minY⟩

/-- Embedding of `getObjectBounds` (script.js:1707-1803).  The default
branch reads `obj.width || 0`; for kinds without a rotationally
symmetric shape and `rotation ≠ 0`, the box of the rotated corners is
returned. -/
def getObjectBounds (ext : Ext) (o : Obj) : Box :=
  let bounds : Box :=
    match o.type with
    | .numbers => ⟨o.x - o.radius, o.y - o.radius, o.radius * 2, o.radius * 2⟩
    | .text => ⟨o.x, o.y, ext.measureText o, o.size⟩
    | .brush => brushBounds o
    | .eraser => brushBounds o
    | _ => ⟨o.x, o.y, o.width.getD 0, o.height.getD 0⟩
  if o.rotation ≠ 0 then
    if o.type = .numbers ∨ o.type = .circle then bounds
    else rotatedCornerBounds ext bounds o.rotation
  else bounds

/-- Squared distance from `(px, py)` to the segment from `(x1, y1)` to
`(x2, y2)`, with the projection parameter clamped to `[0, 1]`
(script.js:1689-1705 squares to `d * d`; the source compares
`Math.sqrt` of this against a tolerance, which is equivalent to the
sqrt-free comparison used below). -/
def distSqToLineSegment (px py x1 y1 x2 y2 : ℚ) : ℚ :=
  let dx := x2 - x1
  let dy := y2 - y1
  let len2 := dx * dx + dy * dy
  if len2 = 0 then (px - x1) * (px - x1) + (py - y1) * (py - y1)
  else
    let t := max 0 (min 1 (((px - x1) * dx + (py - y1) * dy) / len2))
    let projX := x1 + t * dx
    let projY := y1 + t * dy
    (px - projX) * (px - projX) + (py - projY) * (py - projY)

/-- The source's `dist <= tolerance` with `dist = Math.sqrt d2`,
rendered without square roots: `sqrt d2 ≤ tol ↔ 0 ≤ tol ∧ d2 ≤ tol²`. -/
def segWithin (tol px py x1 y1 x2 y2 : ℚ) : Bool :=
  decide (0 ≤ tol ∧ distSqToLineSegment px py x1 y1 x2 y2 ≤ tol * tol)

/-- Consecutive point pairs `(points[j], points[j+1])` as iterated by
the brush branch of `getObjectAt`. -/
def consecutivePairs : List Pt → List (Pt × Pt)
  | p1 :: p2 :: rest => (p1, p2) :: consecutivePairs (p2 :: rest)
  | _ => []

/-- Whether `getObjectAt` considers `(x, y)` a hit on `o`
(script.js:1649-1686): segment distance for brush strokes with points
and for arrows, 3px-expanded box membership otherwise. -/
def hitsObject (ext : Ext) (x y : ℚ) (o : Obj) : Bool :=
  if o.type = .brush ∧ o.points ≠ [] then
    let tol := o.lineWidth / 2 + 2
    (consecutivePairs o.points).any fun pq =>
      segWithin tol x y pq.1.x pq.1.y pq.2.x pq.2.y
  else if o.type = .arrow then
    let tol := o.lineWidth / 2 + 2
    segWithin tol x y o.x o.y (o.x + o.width.getD 0) (o.y + o.height.getD 0)
  else
    let b := getObjectBounds ext o
    decide (b.x - 3 ≤ x ∧ x ≤ b.x + b.width + 3 ∧ b.y - 3 ≤ y ∧ y ≤ b.y + b.height + 3)

/-- Embedding of `getObjectAt`: scan `drawingStack` from the top of
the z-order (end of the list) and return the first hit. -/
def getObjectAt (ext : Ext) (x y : ℚ) (stack : List Obj) : Option Obj :=
  stack.reverse.find? (hitsObject ext x y)

/-- The point `(px, py)` is strictly farther than `tol` from the
segment: the sqrt-free rendering of `sqrt d2 > tol`. -/
def segFar (tol px py x1 y1 x2 y2 : ℚ) : Prop :=
  tol < 0 ∨ tol * tol < distSqToLineSegment px py x1 y1 x2 y2

instance (tol px py x1 y1 x2 y2 : ℚ) : Decidable (segFar tol px py x1 y1 x2 y2) :=
  inferInstanceAs (Decidable (_ ∨ _))

/-- The point `(x, y)` lies strictly outside the tolerance-expanded
bounds of `o` in the sense of the specification: farther than
`lineWidth / 2 + 2` from every consecutive segment for brush strokes
and arrows, strictly outside the 3px-expanded axis-aligned bounds for
every other kind. -/
def outsideObject (ext : Ext) (x y : ℚ) (o : Obj) : Bool :=
  if o.type = .brush then
    (consecutivePairs o.points).all fun pq =>
      decide (segFar (o.lineWidth / 2 + 2) x y pq.1.x pq.1.y pq.2.x pq.2.y)
  else if o.type = .arrow then
    decide (segFar (o.lineWidth / 2 + 2) x y o.x o.y (o.x + o.width.getD 0) (o.y + o.height.getD 0))
  else
    let b := getObjectBounds ext o
    decide (x < b.x - 3 ∨ b.x + b.width + 3 < x ∨ y < b.y - 3 ∨ b.y + b.height + 3 < y)

/-- Resize/rotate handle kinds (`nw-resize` … `se-resize`, `rotate`). -/
inductive Handle where
  | nw
  | ne
  | sw
  | se
  | rotate
deriving DecidableEq, Repr

/-- The `newBounds` computed by the corner switch of `applyResize`
(script.js:626-649): each corner moves the two edges it touches.  The
source starts from a copy of `initialBounds`, so a non-matching handle
leaves it unchanged (the rotate case never reaches this switch). -/
def resizeNewBounds (handleType : Handle) (ib : Box) (deltaX deltaY : ℚ) : Box :=
  match handleType with
  | .nw => ⟨ib.x + deltaX, ib.y + deltaY, ib.width - deltaX, ib.height - deltaY⟩
  | .ne => ⟨ib.x, ib.y + deltaY, ib.width + deltaX, ib.height - deltaY⟩
  | .sw => ⟨ib.x + deltaX, ib.y, ib.width - deltaX, ib.height + deltaY⟩
  | .se => ⟨ib.x, ib.y, ib.width + deltaX, ib.height + deltaY⟩
  | .rotate => ib

/-- Embedding of `applyResize` (script.js:605-683).  The source
mutates `obj` in place and returns nothing; the embedding returns the
updated object, so an early `return` becomes returning the object as
mutated so far.  `initialBounds` and the two initial mouse coordinates
are module-level state in the source and are passed explicitly.  The
truthiness fallbacks `if (!obj.originalSize) obj.originalSize =
obj.size` (and the width/height analogues) fire when the field is
absent or `0`, which is `Option.getD 0 = 0` in the model; they are
rendered as the scalar `os` (resp. `ow`, `oh`) written back into the
field, which yields the identical record in every case, and note they
mutate the object even when the subsequent minimum-font-size check
rejects the update. -/
def applyResize (ext : Ext) (o : Obj) (handleType : Handle)
    (newX newY initialMouseX initialMouseY : ℚ) (initialBounds : Box) : Obj :=
  if handleType = .rotate then
    let centerX := initialBounds.x + initialBounds.width / 2
    let centerY := initialBounds.y + initialBounds.height / 2
    let currentAngle := ext.atan2 (newY - centerY) (newX - centerX)
    let initialAngle := ext.atan2 (initialMouseY - centerY) (initialMouseX - centerX)
    let deltaRotation := currentAngle - initialAngle
    { o with rotation := o.initialRotation.getD 0 + deltaRotation }
  else
    let deltaX := newX - initialMouseX
    let deltaY := newY - initialMouseY
    let newBounds := resizeNewBounds handleType initialBounds deltaX deltaY
    if |newBounds.width| < 5 then o
    else if |newBounds.height| < 5 then o
    else if o.type = .text then
      let os := if o.originalSize.getD 0 = 0 then o.size else o.originalSize.getD 0
      let heightScale := |newBounds.height| / initialBounds.height
      let newSize := os * heightScale
      if newSize < 4 then { o with originalSize := some os }
      else { o with originalSize := some os, x := newBounds.x, y := newBounds.y, size := newSize }
    else
      let ow := if o.originalWidth.getD 0 = 0 then o.width.getD 0 else o.originalWidth.getD 0
      let oh := if o.originalHeight.getD 0 = 0 then o.height.getD 0 else o.originalHeight.getD 0
      let scaleX := newBounds.width / initialBounds.width
      let scaleY := newBounds.height / initialBounds.height
      { o with originalWidth := some ow, originalHeight := some oh,
               x := newBounds.x, y := newBounds.y,
               width := some (ow * scaleX), height := some (oh * scaleY) }

/-- Mousedown on a handle records the rotation baseline:
`selectedObject.initialRotation = selectedObject.rotation || 0`
(script.js:968, 1033); `rotation` is always a number here, and
`0 || 0` is `0`, so the stored value is just `rotation`. -/
def beginResizeTracking (o : Obj) : Obj :=
  { o with initialRotation := some o.rotation }

/-- Mouseup commit after a resize/rotate drag (script.js:1244-1255):
re-baseline `originalSize` (text) or `originalWidth`/`originalHeight`
(other kinds), then delete the rotation-tracking field. -/
def commitResize (o : Obj) : Obj :=
  if o.type = .text then { o with originalSize := some o.size, initialRotation := none }
  else { o with originalWidth := some |o.width.getD 0|, originalHeight := some |o.height.getD 0|,
                initialRotation := none }

/-- The angle added by one rotate drag: the difference of the two
`atan2` terms about the center of the baseline box (script.js:610-615). -/
def rotDelta (ext : Ext) (ib : Box) (initialMouseX initialMouseY mouseX mouseY : ℚ) : ℚ :=
  let centerX := ib.x + ib.width / 2
  let centerY := ib.y + ib.height / 2
  ext.atan2 (mouseY - centerY) (mouseX - centerX) -
    ext.atan2 (initialMouseY - centerY) (initialMouseX - centerX)

/-- One complete rotate manipulation: record the baseline on
mousedown, apply the rotate branch of `applyResize` for the final
mouse position, commit on mouseup. -/
def rotateDragCommit (ext : Ext) (ib : Box) (initialMouseX initialMouseY mouseX mouseY : ℚ)
    (o : Obj) : Obj :=
  commitResize (applyResize ext (beginResizeTracking o) Handle.rotate
    mouseX mouseY initialMouseX initialMouseY ib)

/-- The effective font size `applyResize` computes for a text object:
`(originalSize` after its truthiness fallback`) * |newHeight| /
initialHeight`. -/
def textNewSize (o : Obj) (ib nb : Box) : ℚ :=
  (if o.originalSize.getD 0 = 0 then o.size else o.originalSize.getD 0) * (|nb.height| / ib.height)

/-- Embedding of `createObject` (script.js:1327-1368).  The ambient
tool state (`activeTool`, `currentShape`), context (`colorPicker`,
`lineWidth`) and the number counter are passed explicitly.  Arrows
with either |delta| below 10 snap both deltas to magnitude 10 keeping
each sign; non-arrow kinds normalize negative width/height by shifting
the origin (`flipX`/`flipY` render the source's two in-place
mutations, producing the identical record).  `originalWidth` and
`originalHeight` are captured before that normalization, as in the
source.  The eraser kind creates nothing.  The numbers branch ignores
`x2`/`y2` (the source calls it with them `undefined`). -/
def createObject (activeTool currentShape : Tool) (colorVal : String) (lineW : ℚ)
    (counter : ℕ) (x1 y1 x2 y2 : ℚ) : Option Obj :=
  let ty := if activeTool = .shape then currentShape else activeTool
  let col := if activeTool = .check ∨ (activeTool = .shape ∧ currentShape = .check) then "#4caf50"
             else colorVal
  if activeTool = .numbers then
    some { type := ty, color := col, rotation := 0, x := x1, y := y1,
           number := some counter, radius := lineW }
  else if activeTool = .eraser then
    none
  else
    let width0 := x2 - x1
    let height0 := y2 - y1
    let snap := activeTool = .arrow ∧ (|width0| < 10 ∨ |height0| < 10)
    let width := if snap then 10 * (if 0 ≤ width0 then (1 : ℚ) else -1) else width0
    let height := if snap then 10 * (if 0 ≤ height0 then (1 : ℚ) else -1) else height0
    let noFlip := activeTool = .arrow ∨ (activeTool = .shape ∧ currentShape = .arrow)
    let flipX := ¬ noFlip ∧ width < 0
    let flipY := ¬ noFlip ∧ height < 0
    some { type := ty, color := col, rotation := 0,
           x := if flipX then x2 else x1, y := if flipY then y2 else y1,
           width := some (if flipX then -width else width),
           height := some (if flipY then -height else height),
           lineWidth := lineW,
           originalWidth := some |width|, originalHeight := some |height| }

/-- The click (no-drag) creation branch of the mouseup handler
(script.js:1200-1211): numbers at the release point; rect, circle,
arrow, blur and the shape-picker tool as a `lineWidth`-sized box
around the press point; a direct check/cross tool as a 20×20 box
around the press point; other tools create nothing.  Note the
shape-picker tool is caught by the second branch before the
check/cross branch can see it. -/
def clickCreate (activeTool currentShape : Tool) (colorVal : String) (lineW : ℚ)
    (counter : ℕ) (startX startY endX endY : ℚ) : Option Obj :=
  if activeTool = .numbers then
    createObject activeTool currentShape colorVal lineW counter endX endY 0 0
  else if activeTool = .rect ∨ activeTool = .circle ∨ activeTool = .arrow ∨
      activeTool = .blur ∨ activeTool = .shape then
    createObject activeTool currentShape colorVal lineW counter
      (startX - lineW / 2) (startY - lineW / 2) (startX + lineW / 2) (startY + lineW / 2)
  else if activeTool = .check ∨ activeTool = .cross ∨
      (activeTool = .shape ∧ (currentShape = .check ∨ currentShape = .cross)) then
    createObject activeTool currentShape colorVal lineW counter
      (startX - 10) (startY - 10) (startX + 10) (startY + 10)
  else
    none

/-- The shift-modifier adjustment of the drag deltas in the mousemove
preview (script.js:1125-1145): with shift, rect/circle lock both
magnitudes to the larger one keeping each sign and check/cross are
left free; without shift, check/cross lock both magnitudes to the
smaller one keeping each sign. -/
def shiftAdjustPreview (isShiftPressed : Bool) (activeTool currentShape : Tool)
    (drawWidth drawHeight : ℚ) : ℚ × ℚ :=
  if isShiftPressed then
    let currentTool := if activeTool = .shape then currentShape else activeTool
    if currentTool = .rect ∨ currentTool = .circle then
      let size := max |drawWidth| |drawHeight|
      (if 0 ≤ drawWidth then size else -size, if 0 ≤ drawHeight then size else -size)
    else (drawWidth, drawHeight)
  else
    let currentTool := if activeTool = .shape then currentShape else activeTool
    if currentTool = .check ∨ currentTool = .cross then
      let size := min |drawWidth| |drawHeight|
      (if 0 ≤ drawWidth then size else -size, if 0 ≤ drawHeight then size else -size)
    else (drawWidth, drawHeight)

/-- The identical shift-modifier adjustment at drag commit in the
mouseup handler (script.js:1216-1236). -/
def shiftAdjustCommit (isShiftPressed : Bool) (activeTool currentShape : Tool)
    (drawWidth drawHeight : ℚ) : ℚ × ℚ :=
  if isShiftPressed then
    let currentTool := if activeTool = .shape then currentShape else activeTool
    if currentTool = .rect ∨ currentTool = .circle then
      let size := max |drawWidth| |drawHeight|
      (if 0 ≤ drawWidth then size else -size, if 0 ≤ drawHeight then size else -size)
    else (drawWidth, drawHeight)
  else
    let currentTool := if activeTool = .shape then currentShape else activeTool
    if currentTool = .check ∨ currentTool = .cross then
      let size := min |drawWidth| |drawHeight|
      (if 0 ≤ drawWidth then size else -size, if 0 ≤ drawHeight then size else -size)
    else (drawWidth, drawHeight)

/-- The module-level mutable state of the editing session, with a
loaded image assumed.  `drawingStack` pairs each object with a numeric
identifier standing for its JavaScript reference identity;
`selectedObject`, `hoveredObject` and `currentTextObj` store such
identifiers (`none` for `null`).  History snapshots are
`JSON.stringify`/`parse` round trips of the object array, so they hold
object contents without identities, and restoring yields fresh
references, modelled by re-pairing with fresh identifiers from
`nextId`.  UI-only state (cursor style, button classes, crop preview)
is not modelled. -/
structure AppState where
  drawingStack : List (ℕ × Obj)
  undoStack : List (List Obj)
  redoStack : List (List Obj)
  selectedObject : Option ℕ
  hoveredObject : Option ℕ
  activeTool : Tool
  currentShape : Tool
  colorVal : String
  lineWidthVal : ℚ
  numberCounter : ℕ
  isDrawing : Bool
  isShiftPressed : Bool
  isEditingText : Bool
  currentTextObj : Option ℕ
  currentEraserActive : Bool
  resizeHandle : Option Handle
  initialBounds : Option Box
  startX : ℚ
  startY : ℚ
  nextId : ℕ
deriving DecidableEq, Repr

/-- Embedding of `pushToUndoStack` (script.js:108-112): push a
snapshot of the current document, clear the redo stack. -/
def pushToUndoStack (s : AppState) : AppState :=
  { s with undoStack := s.drawingStack.map Prod.snd :: s.undoStack, redoStack := [] }

/-- Embedding of `undo` (script.js:687-694): no-op on an empty stack;
otherwise push the current document onto redo, restore the popped
snapshot (as fresh objects), clear selection. -/
def undo (s : AppState) : AppState :=
  match s.undoStack with
  | [] => s
  | top :: rest =>
    { s with redoStack := s.drawingStack.map Prod.snd :: s.redoStack,
             drawingStack := List.enumFrom s.nextId top,
             nextId := s.nextId + top.length,
             undoStack := rest,
             selectedObject := none }

/-- Embedding of `redo` (script.js:696-703), symmetric to `undo`. -/
def redo (s : AppState) : AppState :=
  match s.redoStack with
  | [] => s
  | top :: rest =>
    { s with undoStack := s.drawingStack.map Prod.snd :: s.undoStack,
             drawingStack := List.enumFrom s.nextId top,
             nextId := s.nextId + top.length,
             redoStack := rest,
             selectedObject := none }

/-- The tool-specific default stroke width set by `setActiveTool`
(script.js:148-159). -/
def defaultSizeFor (tool : Tool) : ℚ :=
  if tool = .rect ∨ tool = .circle ∨ tool = .shape ∨ tool = .check ∨ tool = .cross then 5
  else if tool = .numbers then 20
  else if tool = .text then 50
  else if tool = .blur then 69
  else 10

/-- Embedding of `setActiveTool` (script.js:116-190) for the tools
that stay active: set the tool, clear the selection, apply the
default color for check/cross and the default size.  The hover
reference is not touched.  (`copy`/`save` return early and `crop`
cleanup only touches crop state.) -/
def setActiveTool (tool : Tool) (s : AppState) : AppState :=
  let col := if tool = .check then "#4caf50" else if tool = .cross then "#f44336" else s.colorVal
  { s with activeTool := tool, selectedObject := none, colorVal := col,
           lineWidthVal := defaultSizeFor tool }

/-- `getObjectAt` over the identified stack: first hit scanning from
the top of the z-order. -/
def getObjectEntryAt (ext : Ext) (x y : ℚ) (stack : List (ℕ × Obj)) : Option (ℕ × Obj) :=
  stack.reverse.find? fun p => hitsObject ext x y p.2

/-- `drawingStack.splice(drawingStack.indexOf(obj), 1)` when the
object is known to be present: remove the first entry with the given
identifier. -/
def spliceOutById (tid : ℕ) (stack : List (ℕ × Obj)) : List (ℕ × Obj) :=
  stack.eraseP fun p => decide (p.1 = tid)

/-- Embedding of the hover-tracking mousemove listener
(script.js:1284-1323): inert while drawing or editing text; for the
select and text tools the hover becomes the object under the mouse,
suppressed to `none` while a selection exists; for every other tool
the hover is cleared. -/
def hoverMove (ext : Ext) (x y : ℚ) (s : AppState) : AppState :=
  if s.isDrawing ∨ s.isEditingText then s
  else if s.activeTool = .select ∨ s.activeTool = .text then
    let objectUnderMouse := getObjectEntryAt ext x y s.drawingStack
    let newHovered := match s.selectedObject with
      | some _ => none
      | none => objectUnderMouse.map Prod.fst
    { s with hoveredObject := newHovered }
  else
    { s with hoveredObject := none }

/-- Embedding of the mousedown handler's final branch
(script.js:934-941, 1046-1072), i.e. for every tool other than
select, crop and text: record the press point, start drawing, clear
the selection, push an undo snapshot; the eraser removes the object
under the press point and arms eraser dragging; the brush starts a
one-point stroke. -/
def mousedownDraw (ext : Ext) (x y : ℚ) (s : AppState) : AppState :=
  let s := { s with startX := x, startY := y, isDrawing := true, selectedObject := none }
  let s := pushToUndoStack s
  if s.activeTool = .eraser then
    let s := match getObjectEntryAt ext x y s.drawingStack with
      | some (tid, _) => { s with drawingStack := spliceOutById tid s.drawingStack }
      | none => s
    { s with currentEraserActive := true }
  else if s.activeTool = .brush then
    let brushObj : Obj := { type := .brush, points := [⟨x, y⟩], color := s.colorVal,
                            lineWidth := s.lineWidthVal }
    { s with drawingStack := s.drawingStack ++ [(s.nextId, brushObj)], nextId := s.nextId + 1 }
  else s

/-- Embedding of the eraser branch of the drawing mousemove handler
(script.js:1109-1118): while an eraser drag is active, remove the
object under the mouse.  Neither selection nor hover is touched. -/
def eraserDragMove (ext : Ext) (x y : ℚ) (s : AppState) : AppState :=
  if ¬ s.isDrawing then s
  else if s.activeTool = .eraser ∧ s.currentEraserActive then
    match getObjectEntryAt ext x y s.drawingStack with
    | some (tid, _) => { s with drawingStack := spliceOutById tid s.drawingStack }
    | none => s
  else s

/-- Embedding of the mouseup handler (script.js:1176-1265) for the
creation tools: commit the dragged or clicked object (crop, select
and text commit nothing here), re-baseline the selected object's
original dimensions if a resize was in progress, and reset the drag
state.  The number counter's post-increment is performed by the
caller of `createObject`, here, when the numbers branch ran. -/
def mouseupTool (s : AppState) (endX endY : ℚ) : AppState :=
  if ¬ s.isDrawing then
    { s with isDrawing := false, currentEraserActive := false }
  else
    let wasClick := |endX - s.startX| < 5 ∧ |endY - s.startY| < 5
    let s1 :=
      if s.activeTool = .crop ∨ s.activeTool = .select ∨ s.activeTool = .text then s
      else
        let newObject :=
          if wasClick then
            clickCreate s.activeTool s.currentShape s.colorVal s.lineWidthVal s.numberCounter
              s.startX s.startY endX endY
          else
            let dims := shiftAdjustCommit s.isShiftPressed s.activeTool s.currentShape
              (endX - s.startX) (endY - s.startY)
            createObject s.activeTool s.currentShape s.colorVal s.lineWidthVal s.numberCounter
              s.startX s.startY (s.startX + dims.1) (s.startY + dims.2)
        match newObject with
        | some o =>
          { s with drawingStack := s.drawingStack ++ [(s.nextId, o)],
                   nextId := s.nextId + 1,
                   numberCounter := if s.activeTool = .numbers then s.numberCounter + 1
                                    else s.numberCounter }
        | none => s
    let s2 :=
      match s1.resizeHandle, s1.selectedObject, s1.initialBounds with
      | some _, some sid, some _ =>
        { s1 with drawingStack := s1.drawingStack.map fun (p : ℕ × Obj) =>
            if p.1 = sid then (p.1, commitResize p.2) else p }
      | _, _, _ => s1
    { s2 with isDrawing := false, resizeHandle := none, initialBounds := none,
              currentEraserActive := false }

/-- Embedding of the Delete-key branch of the keydown listener
(script.js:877-883): with a selection, push an undo snapshot, splice
the selected object out (`indexOf` of a missing reference is `-1`,
and `splice(-1, 1)` removes the last element), clear the selection.
The hover reference is not touched. -/
def deleteKey (s : AppState) : AppState :=
  match s.selectedObject with
  | none => s
  | some tid =>
    let s := pushToUndoStack s
    let newStack :=
      if s.drawingStack.any fun p => decide (p.1 = tid) then spliceOutById tid s.drawingStack
      else s.drawingStack.dropLast
    { s with drawingStack := newStack, selectedObject := none }

/-- Embedding of `applyText` (script.js:1552-1581): when editing, stop
editing, remove the committed text object if its trimmed text is
empty, reset the text-editing state and clear the selection.  The
hover reference is not touched. -/
def applyTextCommit (s : AppState) : AppState :=
  if s.isEditingText then
    let s1 := { s with isEditingText := false }
    let s2 :=
      match s1.currentTextObj with
      | some tid =>
        match s1.drawingStack.find? (fun (p : ℕ × Obj) => decide (p.1 = tid)) with
        | some (_, o) =>
          if o.text.trim = "" then { s1 with drawingStack := spliceOutById tid s1.drawingStack }
          else s1
        | none => s1
      | none => s1
    { s2 with currentTextObj := none, selectedObject := none }
  else s

/-- A concrete interpretation of the external functions, used to
instantiate universally quantified theorems on closed inputs. -/
def extEx : Ext :=
  { cos := fun _ => 1, sin := fun _ => 0, atan2 := fun _ _ => 0, measureText := fun _ => 40 }

/-- A concrete unrotated rectangle with baseline bounds
`{x: 0, y: 0, width: 100, height: 100}` and cached original
dimensions equal to them. -/
def rect0Ex : Obj :=
  { type := .rect, color := "#ff0000", rotation := 0, x := 0, y := 0,
    width := some 100, height := some 100, lineWidth := 2,
    originalWidth := some 100, originalHeight := some 100 }

/-- A concrete text object with font size 50 and cached original size 50. -/
def textEx : Obj :=
  { type := .text, color := "#ff0000", rotation := 0, x := 0, y := 0,
    size := 50, text := "hi", originalSize := some 50 }

/-- The session state right after an image is loaded: empty document
and history, select tool, no selection or hover. -/
def initState : AppState :=
  { drawingStack := [], undoStack := [], redoStack := [],
    selectedObject := none, hoveredObject := none,
    activeTool := .select, currentShape := .rect,
    colorVal := "#ff0000", lineWidthVal := 2, numberCounter := 1,
    isDrawing := false, isShiftPressed := false, isEditingText := false,
    currentTextObj := none, currentEraserActive := false,
    resizeHandle := none, initialBounds := none,
    startX := 0, startY := 0, nextId := 0 }

/-- A concrete event trace: drag a rectangle into existence with the
rect tool, switch to the select tool, move the mouse over the
rectangle (setting the hover reference), switch to the eraser, then
click on the rectangle, which removes it. -/
def eraserTraceState : AppState :=
  let s1 := setActiveTool .rect initState
  let s2 := mousedownDraw extEx 100 100 s1
  let s3 := mouseupTool s2 200 200
  let s4 := setActiveTool .select s3
  let s5 := hoverMove extEx 150 150 s4
  let s6 := setActiveTool .eraser s5
  mousedownDraw extEx 150 150 s6

/-! ## Claim theorems -/

/-- C1: for every session state, with no intervening snapshot between
the two calls, performing `redo` then `undo` when a redo is available,
or `undo` then `redo` when an undo is available, leaves the Document
(the object sequence, compared by content as the serialized snapshots
are) equal to what it was. -/
theorem undo_redo_inverse (s : AppState) :
    (s.redoStack ≠ [] →
      (undo (redo s)).drawingStack.map Prod.snd = s.drawingStack.map Prod.snd) ∧
    (s.undoStack ≠ [] →
      (redo (undo s)).drawingStack.map Prod.snd = s.drawingStack.map Prod.snd) := by
  constructor
  · intro h
    match hr : s.redoStack with
    | [] => exact absurd hr h
    | top :: rest => simp [redo, undo, hr, List.enumFrom_map_snd]
  · intro h
    match hu : s.undoStack with
    | [] => exact absurd hu h
    | top :: rest => simp [undo, redo, hu, List.enumFrom_map_snd]

/-- A concrete session state with one object in the document and a
nonempty undo and redo stack. -/
def histEx : AppState :=
  { initState with drawingStack := [(5, rect0Ex)], undoStack := [[textEx]],
                    redoStack := [[]], nextId := 6 }

/-- Witness for C1 at a concrete state whose undo and redo stacks are
both nonempty. -/
theorem undo_redo_inverse_witness :
    (undo (redo histEx)).drawingStack.map Prod.snd = histEx.drawingStack.map Prod.snd ∧
    (redo (undo histEx)).drawingStack.map Prod.snd = histEx.drawingStack.map Prod.snd :=
  ⟨(undo_redo_inverse histEx).1 (by simp [histEx]),
   (undo_redo_inverse histEx).2 (by simp [histEx])⟩

/-- C2: for every annotation object with rotation 0, `getObjectBounds`
returns exactly the kind's unrotated base box: the stored
x/y/width/height for rect, check, cross and arrow, the radius-centered
square for a number marker, the measured text extent (width from the
font metrics, height the font size) for a text label, and the min/max
over the points expanded by `lineWidth / 2` on each side for a brush
stroke. -/
theorem computeBounds_unrotated (ext : Ext) (o : Obj) (h0 : o.rotation = 0) :
    ((o.type = .rect ∨ o.type = .check ∨ o.type = .cross ∨ o.type = .arrow) →
      getObjectBounds ext o = ⟨o.x, o.y, o.width.getD 0, o.height.getD 0⟩) ∧
    (o.type = .numbers →
      getObjectBounds ext o = ⟨o.x - o.radius, o.y - o.radius, o.radius * 2, o.radius * 2⟩) ∧
    (o.type = .text →
      getObjectBounds ext o = ⟨o.x, o.y, ext.measureText o, o.size⟩) ∧
    (∀ p ps, o.type = .brush → o.points = p :: ps →
      getObjectBounds ext o =
        ⟨(ps.map Pt.x).foldl min p.x - o.lineWidth / 2,
         (ps.map Pt.y).foldl min p.y - o.lineWidth / 2,
         ((ps.map Pt.x).foldl max p.x + o.lineWidth / 2) -
           ((ps.map Pt.x).foldl min p.x - o.lineWidth / 2),
         ((ps.map Pt.y).foldl max p.y + o.lineWidth / 2) -
           ((ps.map Pt.y).foldl min p.y - o.lineWidth / 2)⟩) := by
  refine ⟨fun hty => ?_, fun hty => ?_, fun hty => ?_, fun p ps hty hpts => ?_⟩
  · rcases hty with hty | hty | hty | hty <;> simp [getObjectBounds, h0, hty]
  · simp [getObjectBounds, h0, hty]
  · simp [getObjectBounds, h0, hty]
  · simp [getObjectBounds, h0, hty, brushBounds, hpts]

/-- Witness for C2: the unrotated concrete rectangle `rect0Ex` gets
exactly its stored box. -/
theorem computeBounds_unrotated_witness :
    getObjectBounds extEx rect0Ex = ⟨rect0Ex.x, rect0Ex.y, rect0Ex.width.getD 0, rect0Ex.height.getD 0⟩ :=
  (computeBounds_unrotated extEx rect0Ex rfl).1 (Or.inl rfl)

lemma segWithin_eq_false_of_far {tol px py x1 y1 x2 y2 : ℚ}
    (h : segFar tol px py x1 y1 x2 y2) : segWithin tol px py x1 y1 x2 y2 = false := by
  rw [segWithin, decide_eq_false_iff_not]
  rintro ⟨h1, h2⟩
  rcases h with h | h
  · exact absurd h1 (not_le.mpr h)
  · exact absurd h2 (not_le.mpr h)

lemma hitsObject_eq_false_of_outside (ext : Ext) {x y : ℚ} {o : Obj}
    (hwf : o.type = .brush → o.points ≠ [])
    (h : outsideObject ext x y o = true) : hitsObject ext x y o = false := by
  by_cases hb : o.type = .brush
  · have hne := hwf hb
    rw [hitsObject, if_pos ⟨hb, hne⟩, List.any_eq_false]
    rw [outsideObject, if_pos hb, List.all_eq_true] at h
    intro pq hpq
    have hfar := h pq hpq
    rw [decide_eq_true_eq] at hfar
    simp [segWithin_eq_false_of_far hfar]
  · by_cases ha : o.type = .arrow
    · rw [hitsObject, if_neg (by simp [hb]), if_pos ha]
      rw [outsideObject, if_neg hb, if_pos ha, decide_eq_true_eq] at h
      exact segWithin_eq_false_of_far h
    · rw [hitsObject, if_neg (by simp [hb]), if_neg ha, decide_eq_false_iff_not]
      rw [outsideObject, if_neg hb, if_neg ha, decide_eq_true_eq] at h
      rintro ⟨h1, h2, h3, h4⟩
      rcases h with h | h | h | h
      · exact absurd h1 (not_le.mpr h)
      · exact absurd h2 (not_le.mpr h)
      · exact absurd h3 (not_le.mpr h)
      · exact absurd h4 (not_le.mpr h)

/-- C3: for every point and every object list in which brush strokes
have at least one point (as creation guarantees), if the point lies
strictly outside every object's tolerance-expanded bounds — farther
than `lineWidth / 2 + 2` from every consecutive segment for arrows
and brush strokes, strictly outside the 3px-expanded axis-aligned
bounds for every other kind — then `getObjectAt` returns none. -/
theorem hitTest_none_outside (ext : Ext) (x y : ℚ) (stack : List Obj)
    (hwf : ∀ o ∈ stack, o.type = .brush → o.points ≠ [])
    (hout : ∀ o ∈ stack, outsideObject ext x y o = true) :
    getObjectAt ext x y stack = none := by
  unfold getObjectAt
  rw [List.find?_eq_none]
  intro o ho
  have homem : o ∈ stack := List.mem_reverse.mp ho
  simp [hitsObject_eq_false_of_outside ext (hwf o homem) (hout o homem)]

/-- Witness for C3: the point (200, 200) misses a document holding
only `rect0Ex`, whose expanded bounds end at 103. -/
theorem hitTest_none_outside_witness : getObjectAt extEx 200 200 [rect0Ex] = none :=
  hitTest_none_outside extEx 200 200 [rect0Ex]
    (by
      intro o ho
      rw [List.mem_singleton] at ho
      subst ho
      simp [rect0Ex])
    (by
      intro o ho
      rw [List.mem_singleton] at ho
      subst ho
      simp [outsideObject, rect0Ex, getObjectBounds]
      norm_num)

/-- C4: resizing a rect whose baseline bounds are
`{x: 0, y: 0, width: 100, height: 100}` and whose cached original
dimensions equal the baseline dimensions, via the se handle with mouse
delta (+50, +20), yields width 150 and height 120 with x and y
unchanged; via the nw handle with delta (+10, +10) it yields
`{x: 10, y: 10, width: 90, height: 90}`. -/
theorem applyResize_rect_concrete (ext : Ext) (o : Obj) (imX imY : ℚ)
    (hty : o.type = .rect) (hx : o.x = 0) (hy : o.y = 0)
    (how : o.originalWidth = some 100) (hoh : o.originalHeight = some 100) :
    ((applyResize ext o .se (imX + 50) (imY + 20) imX imY ⟨0, 0, 100, 100⟩).x = o.x ∧
     (applyResize ext o .se (imX + 50) (imY + 20) imX imY ⟨0, 0, 100, 100⟩).y = o.y ∧
     (applyResize ext o .se (imX + 50) (imY + 20) imX imY ⟨0, 0, 100, 100⟩).width = some 150 ∧
     (applyResize ext o .se (imX + 50) (imY + 20) imX imY ⟨0, 0, 100, 100⟩).height = some 120) ∧
    ((applyResize ext o .nw (imX + 10) (imY + 10) imX imY ⟨0, 0, 100, 100⟩).x = 10 ∧
     (applyResize ext o .nw (imX + 10) (imY + 10) imX imY ⟨0, 0, 100, 100⟩).y = 10 ∧
     (applyResize ext o .nw (imX + 10) (imY + 10) imX imY ⟨0, 0, 100, 100⟩).width = some 90 ∧
     (applyResize ext o .nw (imX + 10) (imY + 10) imX imY ⟨0, 0, 100, 100⟩).height = some 90) := by
  constructor <;>
  · simp [applyResize, resizeNewBounds, hty, how, hoh, hx, hy]
    norm_num

/-- Witness for C4 at the concrete rectangle `rect0Ex` with the press
point at the origin. -/
theorem applyResize_rect_concrete_witness :
    ((applyResize extEx rect0Ex .se (0 + 50) (0 + 20) 0 0 ⟨0, 0, 100, 100⟩).x = rect0Ex.x ∧
     (applyResize extEx rect0Ex .se (0 + 50) (0 + 20) 0 0 ⟨0, 0, 100, 100⟩).y = rect0Ex.y ∧
     (applyResize extEx rect0Ex .se (0 + 50) (0 + 20) 0 0 ⟨0, 0, 100, 100⟩).width = some 150 ∧
     (applyResize extEx rect0Ex .se (0 + 50) (0 + 20) 0 0 ⟨0, 0, 100, 100⟩).height = some 120) ∧
    ((applyResize extEx rect0Ex .nw (0 + 10) (0 + 10) 0 0 ⟨0, 0, 100, 100⟩).x = 10 ∧
     (applyResize extEx rect0Ex .nw (0 + 10) (0 + 10) 0 0 ⟨0, 0, 100, 100⟩).y = 10 ∧
     (applyResize extEx rect0Ex .nw (0 + 10) (0 + 10) 0 0 ⟨0, 0, 100, 100⟩).width = some 90 ∧
     (applyResize extEx rect0Ex .nw (0 + 10) (0 + 10) 0 0 ⟨0, 0, 100, 100⟩).height = some 90) :=
  applyResize_rect_concrete extEx rect0Ex 0 0 rfl rfl rfl rfl rfl

lemma rotateDragCommit_rotation (ext : Ext) (ib : Box) (imX imY mX mY : ℚ) (o : Obj) :
    (rotateDragCommit ext ib imX imY mX mY o).rotation =
      o.rotation + rotDelta ext ib imX imY mX mY := by
  unfold rotateDragCommit commitResize applyResize beginResizeTracking rotDelta
  simp [apply_ite Obj.rotation]

/-- C5: rotating by a drag that adds the `atan2`-difference angle of
its mouse pair from a fresh baseline, committing (which discards the
rotation-tracking field), then rotating by a second drag from the new
baseline, yields the same final rotation as one drag whose
`atan2`-difference equals the sum of the two angles, applied from the
original baseline. -/
theorem rotate_commit_compose (ext : Ext) (o : Obj) (b1 b2 bS : Box)
    (i1x i1y m1x m1y i2x i2y m2x m2y iSx iSy mSx mSy : ℚ)
    (h : rotDelta ext bS iSx iSy mSx mSy =
      rotDelta ext b1 i1x i1y m1x m1y + rotDelta ext b2 i2x i2y m2x m2y) :
    (rotateDragCommit ext b2 i2x i2y m2x m2y
        (rotateDragCommit ext b1 i1x i1y m1x m1y o)).rotation =
      (rotateDragCommit ext bS iSx iSy mSx mSy o).rotation := by
  rw [rotateDragCommit_rotation, rotateDragCommit_rotation, rotateDragCommit_rotation, h]
  ring

/-- Witness for C5 with the concrete external interpretation `extEx`,
under which every drag delta is 0. -/
theorem rotate_commit_compose_witness :
    (rotateDragCommit extEx ⟨0, 0, 2, 2⟩ 0 0 1 1
        (rotateDragCommit extEx ⟨0, 0, 2, 2⟩ 0 0 1 1 rect0Ex)).rotation =
      (rotateDragCommit extEx ⟨0, 0, 2, 2⟩ 0 0 1 1 rect0Ex).rotation :=
  rotate_commit_compose extEx rect0Ex ⟨0, 0, 2, 2⟩ ⟨0, 0, 2, 2⟩ ⟨0, 0, 2, 2⟩
    0 0 1 1 0 0 1 1 0 0 1 1 (by simp [rotDelta, extEx])

/-- C6: a resize whose resulting |width| or |height| is below 5 is
rejected with the object fully unchanged; a text resize whose computed
new font size is below 4 is rejected with x, y, width, height, size
and rotation unchanged (the source may still backfill the cached
`originalSize`); a text label of size 50 with height ratio 1/2 ends at
size 25; and one driven below ratio 4/50 keeps its size. -/
theorem resize_reject_minimums :
    (∀ (ext : Ext) (o : Obj) (ht : Handle) (newX newY imX imY : ℚ) (ib : Box),
      ht ≠ .rotate →
      (|(resizeNewBounds ht ib (newX - imX) (newY - imY)).width| < 5 ∨
       |(resizeNewBounds ht ib (newX - imX) (newY - imY)).height| < 5) →
      applyResize ext o ht newX newY imX imY ib = o) ∧
    (∀ (ext : Ext) (o : Obj) (ht : Handle) (newX newY imX imY : ℚ) (ib : Box),
      ht ≠ .rotate → o.type = .text →
      textNewSize o ib (resizeNewBounds ht ib (newX - imX) (newY - imY)) < 4 →
      (applyResize ext o ht newX newY imX imY ib).x = o.x ∧
      (applyResize ext o ht newX newY imX imY ib).y = o.y ∧
      (applyResize ext o ht newX newY imX imY ib).width = o.width ∧
      (applyResize ext o ht newX newY imX imY ib).height = o.height ∧
      (applyResize ext o ht newX newY imX imY ib).size = o.size ∧
      (applyResize ext o ht newX newY imX imY ib).rotation = o.rotation) ∧
    (∀ (ext : Ext) (o : Obj) (imX imY : ℚ),
      o.type = .text → o.size = 50 → o.originalSize = some 50 →
      (applyResize ext o .se imX (imY - 50) imX imY ⟨0, 0, 100, 100⟩).size = 25) ∧
    (∀ (ext : Ext) (o : Obj) (imX imY : ℚ),
      o.type = .text → o.size = 50 → o.originalSize = some 50 →
      (applyResize ext o .se imX (imY - 94) imX imY ⟨0, 0, 100, 100⟩).size = o.size) := by
  refine ⟨?_, ?_, ?_, ?_⟩
  · intro ext o ht newX newY imX imY ib hrot hsmall
    simp only [applyResize, if_neg hrot]
    rcases hsmall with h | h
    · simp [h]
    · simp [h]
  · intro ext o ht newX newY imX imY ib hrot hty hsize
    simp only [textNewSize] at hsize
    by_cases hw : |(resizeNewBounds ht ib (newX - imX) (newY - imY)).width| < 5
    · simp [applyResize, if_neg hrot, hw]
    · by_cases hh : |(resizeNewBounds ht ib (newX - imX) (newY - imY)).height| < 5
      · simp [applyResize, if_neg hrot, hw, hh]
      · simp only [ite_mul] at hsize
        simp [applyResize, if_neg hrot, hw, hh, hty, hsize]
  · intro ext o imX imY hty hsz hos
    simp [applyResize, resizeNewBounds, hty, hos, hsz]
    norm_num
  · intro ext o imX imY hty hsz hos
    simp [applyResize, resizeNewBounds, hty, hos, hsz]
    norm_num

/-- Witness for C6: concrete rejected and accepted resizes of
`rect0Ex` and `textEx`. -/
theorem resize_reject_minimums_witness :
    applyResize extEx rect0Ex .se (-96) 0 0 0 ⟨0, 0, 100, 100⟩ = rect0Ex ∧
    (applyResize extEx textEx .se 0 (0 - 94) 0 0 ⟨0, 0, 100, 100⟩).size = textEx.size ∧
    (applyResize extEx textEx .se 0 (0 - 50) 0 0 ⟨0, 0, 100, 100⟩).size = 25 :=
  ⟨resize_reject_minimums.1 extEx rect0Ex .se (-96) 0 0 0 ⟨0, 0, 100, 100⟩
      (by simp) (by norm_num [resizeNewBounds]),
   resize_reject_minimums.2.2.2 extEx textEx 0 0 rfl rfl rfl,
   resize_reject_minimums.2.2.1 extEx textEx 0 0 rfl rfl rfl⟩

/-- C7: an arrow creation whose horizontal or vertical delta has
magnitude below 10 snaps both stored dimensions to magnitude exactly
10, each carrying the sign of the corresponding original delta (a
delta of 0 counts as nonnegative and snaps to +10), with the origin
kept at the press point. -/
theorem arrow_snap_degenerate (cs : Tool) (col : String) (lw : ℚ) (cnt : ℕ)
    (x1 y1 x2 y2 : ℚ) (hdeg : |x2 - x1| < 10 ∨ |y2 - y1| < 10) :
    ∃ o, createObject .arrow cs col lw cnt x1 y1 x2 y2 = some o ∧
      o.width = some (if 0 ≤ x2 - x1 then (10 : ℚ) else -10) ∧
      o.height = some (if 0 ≤ y2 - y1 then (10 : ℚ) else -10) ∧
      o.x = x1 ∧ o.y = y1 := by
  simp [createObject, hdeg, mul_ite]

/-- Witness for C7: the degenerate arrow from (0, 0) to (3, 3) gets
width 10 and height 10. -/
theorem arrow_snap_degenerate_witness :
    ∃ o, createObject .arrow .rect "c" 3 1 0 0 3 3 = some o ∧
      o.width = some (if 0 ≤ (3 : ℚ) - 0 then (10 : ℚ) else -10) ∧
      o.height = some (if 0 ≤ (3 : ℚ) - 0 then (10 : ℚ) else -10) ∧
      o.x = 0 ∧ o.y = 0 :=
  arrow_snap_degenerate .rect "c" 3 1 0 0 3 3 (by norm_num)

/-- C8: with shift held, rect and circle drags lock both dimension
magnitudes to the larger of the two drag-delta magnitudes, each
keeping its own sign (0 counting as nonnegative), while check and
cross drags are left unconstrained; without shift, check and cross
drags lock both magnitudes to the smaller one, each keeping its own
sign.  The same holds in the live preview and at commit, whether the
kind is the active tool or is resolved through the shape-picker
tool. -/
theorem shift_modifier_rules (tl cs : Tool) (dw dh : ℚ) :
    (((if tl = .shape then cs else tl) = .rect ∨ (if tl = .shape then cs else tl) = .circle) →
      shiftAdjustPreview true tl cs dw dh =
        (if 0 ≤ dw then max |dw| |dh| else -max |dw| |dh|,
         if 0 ≤ dh then max |dw| |dh| else -max |dw| |dh|) ∧
      shiftAdjustCommit true tl cs dw dh =
        (if 0 ≤ dw then max |dw| |dh| else -max |dw| |dh|,
         if 0 ≤ dh then max |dw| |dh| else -max |dw| |dh|)) ∧
    (((if tl = .shape then cs else tl) = .check ∨ (if tl = .shape then cs else tl) = .cross) →
      shiftAdjustPreview true tl cs dw dh = (dw, dh) ∧
      shiftAdjustCommit true tl cs dw dh = (dw, dh) ∧
      shiftAdjustPreview false tl cs dw dh =
        (if 0 ≤ dw then min |dw| |dh| else -min |dw| |dh|,
         if 0 ≤ dh then min |dw| |dh| else -min |dw| |dh|) ∧
      shiftAdjustCommit false tl cs dw dh =
        (if 0 ≤ dw then min |dw| |dh| else -min |dw| |dh|,
         if 0 ≤ dh then min |dw| |dh| else -min |dw| |dh|)) := by
  constructor
  · intro h
    rcases h with h | h <;> constructor <;>
      simp [shiftAdjustPreview, shiftAdjustCommit, h]
  · intro h
    rcases h with h | h <;> refine ⟨?_, ?_, ?_, ?_⟩ <;>
      simp [shiftAdjustPreview, shiftAdjustCommit, h]

/-- Witness for C8: a shift-held rect drag with deltas (3, −4) locks
to (4, −4); a shift-free check drag through the shape picker with
deltas (3, −4) locks to (3, −3). -/
theorem shift_modifier_rules_witness :
    shiftAdjustPreview true .rect .rect 3 (-4) = (4, -4) ∧
    shiftAdjustCommit false .shape .check 3 (-4) = (3, -3) := by
  constructor
  · rw [((shift_modifier_rules .rect .rect 3 (-4)).1 (by simp)).1]
    norm_num
  · rw [((shift_modifier_rules .shape .check 3 (-4)).2 (by simp)).2.2.2]
    norm_num

lemma notMem_map_fst_eraseP (tid : ℕ) :
    ∀ stack : List (ℕ × Obj), (stack.map Prod.fst).Nodup →
      tid ∉ (spliceOutById tid stack).map Prod.fst := by
  intro stack
  induction stack with
  | nil => simp [spliceOutById]
  | cons a t ih =>
    intro hnd
    rw [List.map_cons, List.nodup_cons] at hnd
    by_cases ha : a.1 = tid
    · have hsp : spliceOutById tid (a :: t) = t := by
        simp [spliceOutById, List.eraseP_cons, ha]
      rw [hsp, ← ha]
      exact hnd.1
    · have hsp : spliceOutById tid (a :: t) = a :: spliceOutById tid t := by
        simp [spliceOutById, List.eraseP_cons, ha]
      rw [hsp, List.map_cons, List.mem_cons]
      rintro (h | h)
      · exact ha h.symm
      · exact ih hnd.2 h

/-- C9 (amended): selection is never left dangling by a removal
operation: the Delete key, the eraser mousedown and the empty-text
commit all end with the selection cleared to none, the eraser drag
leaves the selection untouched (it is already none after the eraser
mousedown), and deleting the currently-selected object both clears
the selection and removes that object from the document.  (The hover
reference, by contrast, is not invalidated by removal operations; see
the accompanying counterexample.) -/
theorem removal_clears_selection :
    (∀ s : AppState, (deleteKey s).selectedObject = none) ∧
    (∀ (ext : Ext) (x y : ℚ) (s : AppState),
      (mousedownDraw ext x y s).selectedObject = none) ∧
    (∀ s : AppState, s.isEditingText = true → (applyTextCommit s).selectedObject = none) ∧
    (∀ (ext : Ext) (x y : ℚ) (s : AppState),
      (eraserDragMove ext x y s).selectedObject = s.selectedObject) ∧
    (∀ (s : AppState) (tid : ℕ), s.selectedObject = some tid →
      (s.drawingStack.map Prod.fst).Nodup →
      (deleteKey s).selectedObject = none ∧
      tid ∉ (deleteKey s).drawingStack.map Prod.fst) := by
  refine ⟨?_, ?_, ?_, ?_, ?_⟩
  · intro s
    cases hsel : s.selectedObject <;> simp [deleteKey, hsel]
  · intro ext x y s
    simp only [mousedownDraw, pushToUndoStack]
    split
    · split <;> rfl
    · split <;> rfl
  · intro s hedit
    simp [applyTextCommit, hedit]
  · intro ext x y s
    unfold eraserDragMove
    split
    · rfl
    · split
      · split <;> rfl
      · rfl
  · intro s tid hsel hnd
    refine ⟨by simp [deleteKey, hsel], ?_⟩
    simp only [deleteKey, hsel, pushToUndoStack]
    by_cases hany : s.drawingStack.any fun p => decide (p.1 = tid)
    · simp only [hany, if_true]
      exact notMem_map_fst_eraseP tid s.drawingStack hnd
    · simp only [hany, if_false, Bool.false_eq_true]
      intro hmem
      have hsub := (List.dropLast_sublist s.drawingStack).map Prod.fst
      have hmm : tid ∈ s.drawingStack.map Prod.fst := hsub.subset hmem
      rw [List.mem_map] at hmm
      obtain ⟨p, hp, hptid⟩ := hmm
      exact hany (List.any_eq_true.mpr ⟨p, hp, by simp [hptid]⟩)

/-- A concrete state with one selected object, for instantiating the
Delete-key part of the amended C9 theorem. -/
def delEx : AppState :=
  { initState with drawingStack := [(0, rect0Ex)], selectedObject := some 0 }

/-- Witness for the amended C9: deleting the selected object of
`delEx` clears the selection and removes the object, and committing
text in an editing state clears the selection. -/
theorem removal_clears_selection_witness :
    ((deleteKey delEx).selectedObject = none ∧
      0 ∉ (deleteKey delEx).drawingStack.map Prod.fst) ∧
    (applyTextCommit { initState with isEditingText := true }).selectedObject = none :=
  ⟨removal_clears_selection.2.2.2.2 delEx 0 rfl (by simp [delEx]),
   removal_clears_selection.2.2.1 { initState with isEditingText := true } rfl⟩

/-- The rectangle created by the drag of the C9 counterexample trace. -/
def rectTraceObj : Obj :=
  { type := .rect, color := "#ff0000", rotation := 0, x := 100, y := 100,
    width := some 100, height := some 100, lineWidth := 5,
    originalWidth := some 100, originalHeight := some 100 }

lemma hits_rectTraceObj : hitsObject extEx 150 150 rectTraceObj = true := by
  simp [hitsObject, getObjectBounds, rectTraceObj, extEx]
  norm_num

set_option maxHeartbeats 1000000 in
/-- C9 counterexample: in the concrete reachable trace
`eraserTraceState`, the eraser click that removes the hovered
rectangle leaves the hover reference pointing at the removed object
(identifier 0) while the document is empty — the hover is dangling
right after a removal operation, contradicting the claim. -/
theorem hover_dangles_after_eraser_click :
    eraserTraceState.hoveredObject = some 0 ∧ eraserTraceState.drawingStack = [] := by
  have h := hits_rectTraceObj
  simp only [rectTraceObj] at h
  simp [eraserTraceState, setActiveTool, mousedownDraw, mouseupTool, hoverMove, initState,
        pushToUndoStack, defaultSizeFor, getObjectEntryAt, h,
        spliceOutById, clickCreate, createObject, shiftAdjustCommit, List.eraseP_cons]
  norm_num [h, List.eraseP_cons]

/-- C10 counterexample: a click with the shape-picker tool set to
check and the active tool size 6 creates a 6×6 box centered on the
click point, not the claimed 20×20 box — the generic `'shape'` branch
of the mouseup handler wins before the check/cross click branch is
reached. -/
theorem shape_picker_check_click_not_20 :
    (clickCreate .shape .check "c" 6 1 50 50 50 50).map
        (fun o => (o.x, o.y, o.width, o.height, o.type)) =
      some (47, 47, some 6, some 6, Tool.check) ∧ (6 : ℚ) ≠ 20 := by
  constructor
  · simp [clickCreate, createObject]
    norm_num
  · norm_num

/-- C10 (amended): a click with a direct check or cross tool creates
a 20×20 box of that kind centered on the click point; a click with
the shape-picker tool set to check or cross is instead caught by the
generic shape branch and creates a box of the active tool size
(`lineWidth`) centered on the click point. -/
theorem check_cross_click_boxes :
    (∀ (tl cs : Tool) (col : String) (lw : ℚ) (cnt : ℕ) (sx sy ex ey : ℚ),
      (tl = .check ∨ tl = .cross) →
      ∃ o, clickCreate tl cs col lw cnt sx sy ex ey = some o ∧
        o.x = sx - 10 ∧ o.y = sy - 10 ∧ o.width = some 20 ∧ o.height = some 20 ∧
        o.type = tl) ∧
    (∀ (cs : Tool) (col : String) (lw : ℚ) (cnt : ℕ) (sx sy ex ey : ℚ),
      (cs = .check ∨ cs = .cross) → 0 ≤ lw →
      ∃ o, clickCreate .shape cs col lw cnt sx sy ex ey = some o ∧
        o.x = sx - lw / 2 ∧ o.y = sy - lw / 2 ∧ o.width = some lw ∧ o.height = some lw ∧
        o.type = cs) := by
  constructor
  · intro tl cs col lw cnt sx sy ex ey h
    rcases h with h | h <;> subst h <;>
      simp [clickCreate, createObject,
        show sx + 10 - (sx - 10) = (20 : ℚ) from by ring,
        show sy + 10 - (sy - 10) = (20 : ℚ) from by ring]
  · intro cs col lw cnt sx sy ex ey h hlw
    rcases h with h | h <;> subst h <;>
      simp [clickCreate, createObject, not_lt.mpr hlw,
        show sx + lw / 2 - (sx - lw / 2) = lw from by ring,
        show sy + lw / 2 - (sy - lw / 2) = lw from by ring]

/-- Witness for the amended C10: a direct check-tool click at
(50, 50) gives the 20×20 box, and a shape-picker check click with
tool size 5 gives a 5×5 box. -/
theorem check_cross_click_boxes_witness :
    (∃ o, clickCreate .check .rect "c" 5 1 50 50 50 50 = some o ∧
      o.x = 50 - 10 ∧ o.y = 50 - 10 ∧ o.width = some 20 ∧ o.height = some 20 ∧
      o.type = .check) ∧
    (∃ o, clickCreate .shape .check "c" 5 1 50 50 50 50 = some o ∧
      o.x = 50 - 5 / 2 ∧ o.y = 50 - 5 / 2 ∧ o.width = some 5 ∧ o.height = some 5 ∧
      o.type = .check) :=
  ⟨check_cross_click_boxes.1 .check .rect "c" 5 1 50 50 50 50 (Or.inl rfl),
   check_cross_click_boxes.2 .check "c" 5 1 50 50 50 50 (Or.inl rfl) (by norm_num)⟩

end QuickEdit
